import Mathlib

/-!
Shallow embedding of the go-identity-operator repository: the `Reconcile`
control loop of the user controller, its external-service helper functions
(`finalizeUser`, `createUser`, `getUser`, `updateUser`, `addFinalizer`),
the finalizer-list utilities (`containsString`, `removeString`), the
service-level `DeleteUser` HTTP wrapper, and the configuration loader
`NewIdentityConfig`.

External effects (the Kubernetes API server and the external identity
service over HTTP) are modelled by a `World` record that supplies the
outcome of each call the code can make; `Reconcile` returns, besides its
`(ctrl.Result, error)` pair (the result struct is always empty, so only the
error component is kept), the ordered trace of calls it performed and the
list of record states it durably persisted (successful store writes).
-/

/-- Model of Go errors as seen by the controller: the apimachinery
`errors.IsNotFound` predicate distinguishes a not-found error from every
other error, which we keep abstract as a message string. -/
inductive GoError where
  | notFound : GoError
  | other : String → GoError
deriving DecidableEq, Repr

/-- Model of `errors.IsNotFound` from k8s.io/apimachinery. -/
def isNotFound : GoError → Bool
  | .notFound => true
  | .other _ => false

/-- Modelled from the spec: the `api/v1` `UserSpec` type is not under
`src/`; per §3 the spec fields are name, firstname, lastname, role, age and
password (the controller reads all but password in its drift comparison). -/
structure UserSpec where
  name : String
  firstname : String
  lastname : String
  role : String
  age : Int
  password : String
deriving DecidableEq, Repr

/-- Modelled from the spec: the `api/v1` `UserStatus` type is not under
`src/`; the controller reads and writes `Status.ID` and `Status.State`. -/
structure UserStatus where
  id : String
  state : String
deriving DecidableEq, Repr

/-- Modelled from the spec: the `api/v1` `User` record (desired-state
record). `deletionRequested` models a non-zero `ObjectMeta.DeletionTimestamp`;
`finalizers` models `ObjectMeta.Finalizers` as read by `GetFinalizers`. -/
structure User where
  deletionRequested : Bool
  finalizers : List String
  spec : UserSpec
  status : UserStatus
deriving DecidableEq, Repr

/-- The `IdentityUser` struct of the service package (external record). -/
structure IdentityUser where
  id : String
  name : String
  password : String
  firstname : String
  lastname : String
  role : String
  age : Int
deriving DecidableEq, Repr

/-- The `userFinalizer` constant of the controller package. -/
def userFinalizer : String := "micze.io/user-finalizer"

/-- Embedding of `containsString` from the controller: linear scan
returning true on the first equal element. -/
def containsString : List String → String → Bool
  | [], _ => false
  | item :: rest, s => if item == s then true else containsString rest s

/-- Embedding of `removeString` from the controller: keeps, in order, the
elements different from `s`. -/
def removeString : List String → String → List String
  | [], _ => []
  | item :: rest, s =>
    if item != s then item :: removeString rest s else removeString rest s

/-- The `IdentityConfig` struct of the service package. -/
structure IdentityConfig where
  host : String
  port : Int
  user : String
  pass : String
deriving DecidableEq, Repr

/-- Model of Go `strconv.Atoi` syntax: an optional single sign followed by
one or more ASCII digits; anything else is a syntax error. The int64 range
clamp of Go's implementation is omitted (irrelevant to the configuration
values concerned). On success the parsed integer is returned. -/
def goAtoi (s : String) : Except Unit Int :=
  match s.toList with
  | [] => .error ()
  | c :: rest =>
    let signed : Bool × List Char :=
      if c = '-' then (true, rest)
      else if c = '+' then (false, rest)
      else (false, c :: rest)
    match signed with
    | (neg, digits) =>
      if digits.isEmpty then .error ()
      else if digits.all Char.isDigit then
        let n : Nat := digits.foldl (fun acc d => acc * 10 + (d.toNat - 48)) 0
        .ok (if neg then -(n : Int) else (n : Int))
      else .error ()

/-- Value component of Go `strconv.Atoi`: on a syntax error Go returns 0
together with the error; the caller in `NewIdentityConfig` discards the
error and keeps the value. -/
def atoiValue (s : String) : Int :=
  match goAtoi s with
  | .ok n => n
  | .error _ => 0

/-- Embedding of `NewIdentityConfig`: defaults, then each environment
variable overrides when non-empty (Go `os.Getenv` returns the empty string
for an unset variable, so the environment is a total map to strings; the
port override discards the Atoi error), then the functional options are
applied in order. -/
def NewIdentityConfig (getenv : String → String)
    (opts : List (IdentityConfig → IdentityConfig)) : IdentityConfig :=
  let cfg : IdentityConfig := ⟨"127.0.0.1", 8080, "John", "VMw@re1!"⟩
  let cfg := if getenv "IDM_HOST" != "" then { cfg with host := getenv "IDM_HOST" } else cfg
  let cfg := if getenv "IDM_PORT" != "" then { cfg with port := atoiValue (getenv "IDM_PORT") } else cfg
  let cfg := if getenv "IDM_USER" != "" then { cfg with user := getenv "IDM_USER" } else cfg
  let cfg := if getenv "IDM_PASS" != "" then { cfg with pass := getenv "IDM_PASS" } else cfg
  opts.foldl (fun c f => f c) cfg

/-- An HTTP response as observed by the service client after a successful
round trip: status code and body (the body is ignored by `DeleteUser`). -/
structure HttpResponse where
  statusCode : Int
  body : String
deriving DecidableEq, Repr

/-- Embedding of the service-level `DeleteUser`: the only error sources are
request construction and the transport call (`client.Do`); once a response
arrives, its status code is never inspected and nil is returned. `doResult`
is the outcome of the transport call. -/
def DeleteUser (doResult : Except GoError HttpResponse) : Except GoError Unit :=
  match doResult with
  | .error e => .error e
  | .ok _ => .ok ()

/-- An observable call performed by `Reconcile`: external-service calls
(login, create, get, update, delete) and desired-state-store writes (the
status-subresource update and the main-object update that carries the
finalizer list). Store-write events record the full record state handed to
the write. -/
inductive Event where
  | login : Event
  | extCreate : UserSpec → Event
  | extGet : String → Event
  | extUpdate : String → UserSpec → Event
  | extDelete : String → Event
  | statusUpdate : User → Event
  | objectUpdate : User → Event
deriving DecidableEq, Repr

/-- Outcomes of every call `Reconcile` can make, supplied by the
environment. Each controller helper performs its own fresh login, so the
token outcome is per-helper. `updateObjResult` is the outcome of
`r.Update` (used for finalizer removal in the deletion branch and for
`addFinalizer`, which are in disjoint branches); `statusUpdateResult` is
the outcome of the status-subresource write. -/
structure World where
  fetchResult : Except GoError User
  finTokenResult : Except GoError String
  deleteResult : Except GoError Unit
  createTokenResult : Except GoError String
  createResult : Except GoError IdentityUser
  statusUpdateResult : Except GoError Unit
  getTokenResult : Except GoError String
  getResult : Except GoError IdentityUser
  updTokenResult : Except GoError String
  updateResult : Except GoError IdentityUser
  updateObjResult : Except GoError Unit

/-- Embedding of the controller helper `finalizeUser`: fresh config and
service, `GetToken`, then `svc.DeleteUser(user.Status.ID)`; a token error
returns at once without the delete call. Returns the calls performed and
the Go result. -/
def finalizeUser (w : World) (user : User) : List Event × Except GoError Unit :=
  match w.finTokenResult with
  | .error e => ([.login], .error e)
  | .ok _ =>
    match w.deleteResult with
    | .error e => ([.login, .extDelete user.status.id], .error e)
    | .ok _ => ([.login, .extDelete user.status.id], .ok ())

/-- Embedding of the controller helper `createUser`: fresh config and
service, `GetToken`, then `svc.CreateUser(&user.Spec)`; a token error
returns at once without the create call. -/
def createUser (w : World) (user : User) : List Event × Except GoError IdentityUser :=
  match w.createTokenResult with
  | .error e => ([.login], .error e)
  | .ok _ =>
    match w.createResult with
    | .error e => ([.login, .extCreate user.spec], .error e)
    | .ok ext => ([.login, .extCreate user.spec], .ok ext)

/-- Embedding of the controller helper `getUser`: fresh config and service,
`GetToken`, then `svc.GetUser(id)`; a token error returns at once without
the get call. -/
def getUser (w : World) (id : String) : List Event × Except GoError IdentityUser :=
  match w.getTokenResult with
  | .error e => ([.login], .error e)
  | .ok _ =>
    match w.getResult with
    | .error e => ([.login, .extGet id], .error e)
    | .ok ext => ([.login, .extGet id], .ok ext)

/-- Embedding of the controller helper `updateUser`: fresh config and
service, `GetToken`, then `svc.UpdateUser(extUser.ID, &user.Spec)`; a token
error returns at once without the update call. -/
def updateUser (w : World) (user : User) (extUser : IdentityUser) :
    List Event × Except GoError IdentityUser :=
  match w.updTokenResult with
  | .error e => ([.login], .error e)
  | .ok _ =>
    match w.updateResult with
    | .error e => ([.login, .extUpdate extUser.id user.spec], .error e)
    | .ok ext => ([.login, .extUpdate extUser.id user.spec], .ok ext)

/-- The drift comparison of `Reconcile` (line 120 of the controller):
external record versus spec on exactly the five fields name, firstname,
lastname, role, age. -/
def driftDetected (extUser : IdentityUser) (s : UserSpec) : Bool :=
  extUser.name != s.name || extUser.firstname != s.firstname ||
    extUser.lastname != s.lastname || extUser.role != s.role || extUser.age != s.age

/-- What one `Reconcile` invocation produced: the Go error component of its
return value (the `ctrl.Result` struct it returns is always the zero value,
so only the error is kept; `ok` means success with no requeue), the ordered
trace of calls performed, and the record states durably persisted by
successful store writes, in order. -/
structure ReconcileOutput where
  result : Except GoError Unit
  trace : List Event
  persisted : List User
deriving Repr

/-- Embedding of the controller helper `addFinalizer`: appends
`userFinalizer` to the finalizer list and writes the object with
`r.Update`. Returns the attempted write event, the persisted state when the
write succeeded, and the Go result. -/
def addFinalizer (w : World) (user : User) :
    List Event × List User × Except GoError Unit :=
  let user2 := { user with finalizers := user.finalizers ++ [userFinalizer] }
  match w.updateObjResult with
  | .error e => ([.objectUpdate user2], [], .error e)
  | .ok _ => ([.objectUpdate user2], [user2], .ok ())

/-- Embedding of `Reconcile` (controller lines 53 to 139). Branch by
branch: fetch (not-found and every other fetch error both return success);
deletion branch (finalizer present: `finalizeUser`, then remove the marker
and `r.Update`; finalizer absent: plain success); creation branch (empty
`Status.ID`: `createUser`, set `Status.State` to Created and `Status.ID`,
status write, then return without touching finalizers); drift branch
(non-empty `Status.ID`: `getUser`, compare with `driftDetected`, update on
drift, then fall through to `addFinalizer` when the marker is absent). -/
def Reconcile (w : World) : ReconcileOutput :=
  match w.fetchResult with
  | .error e =>
    if isNotFound e then ⟨.ok (), [], []⟩
    else ⟨.ok (), [], []⟩
  | .ok user =>
    if user.deletionRequested then
      if containsString user.finalizers userFinalizer then
        match finalizeUser w user with
        | (tr, .error e) => ⟨.error e, tr, []⟩
        | (tr, .ok _) =>
          let user2 := { user with finalizers := removeString user.finalizers userFinalizer }
          match w.updateObjResult with
          | .error e => ⟨.error e, tr ++ [.objectUpdate user2], []⟩
          | .ok _ => ⟨.ok (), tr ++ [.objectUpdate user2], [user2]⟩
      else ⟨.ok (), [], []⟩
    else if user.status.id == "" then
      match createUser w user with
      | (tr, .error e) => ⟨.error e, tr, []⟩
      | (tr, .ok extUser) =>
        let user2 := { user with status := ⟨extUser.id, "Created"⟩ }
        match w.statusUpdateResult with
        | .error e => ⟨.error e, tr ++ [.statusUpdate user2], []⟩
        | .ok _ => ⟨.ok (), tr ++ [.statusUpdate user2], [user2]⟩
    else
      match getUser w user.status.id with
      | (tr, .error e) => ⟨.error e, tr, []⟩
      | (tr, .ok extUser) =>
        let afterDrift : List Event × Except GoError Unit :=
          if driftDetected extUser user.spec then
            match updateUser w user extUser with
            | (tr2, .error e) => (tr ++ tr2, .error e)
            | (tr2, .ok _) => (tr ++ tr2, .ok ())
          else (tr, .ok ())
        match afterDrift with
        | (tr3, .error e) => ⟨.error e, tr3, []⟩
        | (tr3, .ok _) =>
          if !containsString user.finalizers userFinalizer then
            match addFinalizer w user with
            | (tr4, ps, .error e) => ⟨.error e, tr3 ++ tr4, ps⟩
            | (tr4, ps, .ok _) => ⟨.ok (), tr3 ++ tr4, ps⟩
          else ⟨.ok (), tr3, []⟩

/-- Sample spec used by the concrete witnesses. -/
def specA : UserSpec := ⟨"alice", "Alice", "Liddell", "admin", 30, "pw"⟩

/-- Sample external record matching `specA`, with external id "ext-1". -/
def extA : IdentityUser := ⟨"ext-1", "alice", "", "Alice", "Liddell", "admin", 30⟩

/-- Baseline world where every call succeeds (the fetch outcome is
overridden per scenario). -/
def wBase : World :=
  ⟨.error .notFound, .ok "tok", .ok (), .ok "tok", .ok extA, .ok (),
   .ok "tok", .ok extA, .ok "tok", .ok extA, .ok ()⟩

/-- A record marked for deletion that carries the finalizer marker. -/
def userDel : User := ⟨true, [userFinalizer], specA, ⟨"ext-1", "Created"⟩⟩

/-- A record marked for deletion without the finalizer marker. -/
def userDelNoFin : User := ⟨true, [], specA, ⟨"ext-1", "Created"⟩⟩

/-- A fresh record: not being deleted, no finalizers, empty status. -/
def userNew : User := ⟨false, [], specA, ⟨"", ""⟩⟩

/-- A linked record: not being deleted, finalizer present, external id set. -/
def userLive : User := ⟨false, [userFinalizer], specA, ⟨"ext-1", "Created"⟩⟩

/-- World whose fetch fails with a generic (non-not-found) error. -/
def wFetchErr : World := { wBase with fetchResult := .error (.other "boom") }

/-- C7: for a record with deletion requested and the finalizer marker
absent, `Reconcile` returns success, performs no call at all (in particular
no external delete) and persists nothing. -/
theorem reconcile_no_finalizer_no_delete (w : World) (user : User)
    (hf : w.fetchResult = .ok user)
    (hd : user.deletionRequested = true)
    (hm : containsString user.finalizers userFinalizer = false) :
    Reconcile w = ⟨.ok (), [], []⟩ := by
  unfold Reconcile
  rw [hf]
  simp [hd, hm]

/-- Witness for C7 at a concrete record marked for deletion with no
finalizers. -/
theorem reconcile_no_finalizer_no_delete_witness :
    ({ wBase with fetchResult := .ok userDelNoFin } : World).fetchResult = .ok userDelNoFin ∧
    Reconcile { wBase with fetchResult := .ok userDelNoFin } = ⟨.ok (), [], []⟩ :=
  ⟨rfl, reconcile_no_finalizer_no_delete _ userDelNoFin rfl rfl (by decide)⟩

/-- C4 counterexample: a fetch failure that is not not-found ("boom") makes
`Reconcile` return success (nil error), not the surfaced retryable error
the claim requires. -/
theorem reconcile_fetch_error_counterexample :
    wFetchErr.fetchResult = .error (.other "boom") ∧
    isNotFound (.other "boom") = false ∧
    (Reconcile wFetchErr).result = .ok () :=
  ⟨rfl, rfl, rfl⟩

/-- C4 amended: every fetch failure, not-found or otherwise, makes
`Reconcile` return success with no requeue, no calls and no persisted
write (a non-not-found failure is only logged). -/
theorem reconcile_fetch_error_returns_success (w : World) (e : GoError)
    (hf : w.fetchResult = .error e) :
    Reconcile w = ⟨.ok (), [], []⟩ := by
  unfold Reconcile
  rw [hf]
  exact ite_self _

/-- Witness for the amended C4 at the concrete failing fetch. -/
theorem reconcile_fetch_error_returns_success_witness :
    wFetchErr.fetchResult = .error (.other "boom") ∧
    Reconcile wFetchErr = ⟨.ok (), [], []⟩ :=
  ⟨rfl, reconcile_fetch_error_returns_success wFetchErr (.other "boom") rfl⟩

/-- C2: evaluation of `DeleteUser` at the failing input. The service-level
`DeleteUser` never inspects the response status: a 500 response (non-2xx,
not not-found) yields success instead of the error the claim requires, and
so does every other status. -/
theorem deleteUser_ignores_response_status :
    DeleteUser (.ok ⟨500, ""⟩) = .ok () ∧
    DeleteUser (.ok ⟨404, ""⟩) = .ok () ∧
    DeleteUser (.ok ⟨200, ""⟩) = .ok () :=
  ⟨rfl, rfl, rfl⟩

/-- C9: configuration resolution order. Each of host, user and pass is the
environment value when non-empty and the built-in default otherwise; the
port is the parsed environment value when set (hypothesis: it parses) and
8080 otherwise; the functional options are applied last, on top of the
environment-resolved base. -/
theorem newIdentityConfig_resolution (getenv : String → String)
    (opts : List (IdentityConfig → IdentityConfig)) (n : Int)
    (hp : (getenv "IDM_PORT" = "" ∧ n = 8080) ∨ goAtoi (getenv "IDM_PORT") = .ok n) :
    NewIdentityConfig getenv opts =
      opts.foldl (fun c f => f c)
        ⟨if getenv "IDM_HOST" = "" then "127.0.0.1" else getenv "IDM_HOST",
         n,
         if getenv "IDM_USER" = "" then "John" else getenv "IDM_USER",
         if getenv "IDM_PASS" = "" then "VMw@re1!" else getenv "IDM_PASS"⟩ := by
  have hport : (if getenv "IDM_PORT" != "" then atoiValue (getenv "IDM_PORT") else (8080 : Int)) = n := by
    rcases hp with ⟨h1, h2⟩ | h1
    · simp [h1, h2]
    · have hne : getenv "IDM_PORT" ≠ "" := by
        intro h
        rw [h] at h1
        exact Except.noConfusion h1
      simp [hne, atoiValue, h1]
  unfold NewIdentityConfig
  rw [← hport]
  by_cases hh : getenv "IDM_HOST" = "" <;>
    by_cases hu : getenv "IDM_USER" = "" <;>
      by_cases hps : getenv "IDM_PASS" = "" <;>
        by_cases hpt : getenv "IDM_PORT" = "" <;>
          simp [hh, hu, hps, hpt]

/-- Environment for the C9 witness: host and port set, user and pass
unset. -/
def genvW : String → String := fun k =>
  if k = "IDM_HOST" then "idm.example" else if k = "IDM_PORT" then "9090" else ""

/-- Functional option list for the C9 witness: overrides the user. -/
def optsW : List (IdentityConfig → IdentityConfig) :=
  [fun c => { c with user := "svc" }]

/-- Witness for C9: host from environment, port parsed from environment,
user from the option, pass from the default. -/
theorem newIdentityConfig_resolution_witness :
    goAtoi (genvW "IDM_PORT") = .ok 9090 ∧
    NewIdentityConfig genvW optsW = ⟨"idm.example", 9090, "svc", "VMw@re1!"⟩ :=
  ⟨rfl, newIdentityConfig_resolution genvW optsW 9090 (Or.inr rfl)⟩

/-- C10: a non-empty IDM_PORT value that is not a valid integer makes
`NewIdentityConfig` set the port to 0 (the Atoi error is discarded), not
keep the default 8080; the function has no error channel. -/
theorem newIdentityConfig_bad_port_zero (getenv : String → String)
    (h1 : getenv "IDM_PORT" ≠ "")
    (h2 : goAtoi (getenv "IDM_PORT") = .error ()) :
    (NewIdentityConfig getenv []).port = 0 := by
  by_cases hh : getenv "IDM_HOST" = "" <;>
    by_cases hu : getenv "IDM_USER" = "" <;>
      by_cases hps : getenv "IDM_PASS" = "" <;>
        simp [NewIdentityConfig, hh, hu, hps, h1, atoiValue, h2]

/-- Environment for the C10 witness: IDM_PORT is the non-numeric string
"abc", everything else unset. -/
def genvBad : String → String := fun k => if k = "IDM_PORT" then "abc" else ""

/-- Witness for C10 at IDM_PORT set to "abc": the resolved port is 0. -/
theorem newIdentityConfig_bad_port_zero_witness :
    genvBad "IDM_PORT" ≠ "" ∧ goAtoi (genvBad "IDM_PORT") = .error () ∧
    (NewIdentityConfig genvBad []).port = 0 :=
  ⟨by decide, rfl, newIdentityConfig_bad_port_zero genvBad (by decide) rfl⟩

/-- C1: for a record marked for deletion with the finalizer marker present,
any finalizer write in the trace is preceded by the external delete for the
record's external id; and when the external delete (attempted after a
successful login) fails, `Reconcile` returns exactly that error, performs
no finalizer write and persists nothing, so the marker stays. -/
theorem reconcile_deletion_ordering (w : World) (user : User)
    (hf : w.fetchResult = .ok user)
    (hd : user.deletionRequested = true)
    (hm : containsString user.finalizers userFinalizer = true) :
    (∀ u, Event.objectUpdate u ∈ (Reconcile w).trace →
      ∃ pre suf, (Reconcile w).trace = pre ++ Event.objectUpdate u :: suf ∧
        Event.extDelete user.status.id ∈ pre) ∧
    (∀ tok e, w.finTokenResult = .ok tok → w.deleteResult = .error e →
      (Reconcile w).result = .error e ∧
      (∀ u, Event.objectUpdate u ∉ (Reconcile w).trace) ∧
      (Reconcile w).persisted = []) := by
  constructor
  · intro u hu
    rcases h1 : w.finTokenResult with e1 | t1
    · simp [Reconcile, finalizeUser, hf, hd, hm, h1] at hu
    · rcases h2 : w.deleteResult with e2 | u2
      · simp [Reconcile, finalizeUser, hf, hd, hm, h1, h2] at hu
      · rcases h3 : w.updateObjResult with e3 | u3 <;>
        · have hu' : u = { user with finalizers := removeString user.finalizers userFinalizer } := by
            simpa [Reconcile, finalizeUser, hf, hd, hm, h1, h2, h3] using hu
          subst hu'
          refine ⟨[Event.login, Event.extDelete user.status.id], [], ?_, by simp⟩
          simp [Reconcile, finalizeUser, hf, hd, hm, h1, h2, h3]
  · intro tok e htok hde
    refine ⟨?_, ?_, ?_⟩ <;> simp [Reconcile, finalizeUser, hf, hd, hm, htok, hde]

/-- World for the C1 witness: deletion requested, delete call fails. -/
def wDelErr : World :=
  { wBase with
    fetchResult := .ok userDel
    deleteResult := .error (.other "boom") }

/-- Witness for C1 at the concrete failing delete: the error is surfaced
and nothing is persisted (the marker stays). -/
theorem reconcile_deletion_ordering_witness :
    (Reconcile wDelErr).result = .error (.other "boom") ∧
    (Reconcile wDelErr).persisted = [] :=
  ⟨((reconcile_deletion_ordering wDelErr userDel rfl rfl (by decide)).2 "tok" _ rfl rfl).1,
   ((reconcile_deletion_ordering wDelErr userDel rfl rfl (by decide)).2 "tok" _ rfl rfl).2.2⟩

/-- C5: for a record not being deleted with empty `Status.ID`, `Reconcile`
runs the create helper: a login failure or create failure is surfaced with
nothing persisted; on create success the status is set to the returned id
and state Created and persisted by the status write (on a failing status
write the error is surfaced and nothing is durably persisted). -/
theorem reconcile_create_branch (w : World) (user : User)
    (hf : w.fetchResult = .ok user)
    (hd : user.deletionRequested = false)
    (hid : user.status.id = "") :
    (∀ e, w.createTokenResult = .error e → Reconcile w = ⟨.error e, [.login], []⟩) ∧
    (∀ tok e, w.createTokenResult = .ok tok → w.createResult = .error e →
      Reconcile w = ⟨.error e, [.login, .extCreate user.spec], []⟩) ∧
    (∀ tok extUser, w.createTokenResult = .ok tok → w.createResult = .ok extUser →
      w.statusUpdateResult = .ok () →
      Reconcile w = ⟨.ok (), [.login, .extCreate user.spec,
          .statusUpdate { user with status := ⟨extUser.id, "Created"⟩ }],
        [{ user with status := ⟨extUser.id, "Created"⟩ }]⟩) ∧
    (∀ tok extUser e, w.createTokenResult = .ok tok → w.createResult = .ok extUser →
      w.statusUpdateResult = .error e →
      Reconcile w = ⟨.error e, [.login, .extCreate user.spec,
          .statusUpdate { user with status := ⟨extUser.id, "Created"⟩ }], []⟩) := by
  refine ⟨?_, ?_, ?_, ?_⟩
  · intro e htok
    simp [Reconcile, createUser, hf, hd, hid, htok]
  · intro tok e htok hcr
    simp [Reconcile, createUser, hf, hd, hid, htok, hcr]
  · intro tok extUser htok hcr hst
    simp [Reconcile, createUser, hf, hd, hid, htok, hcr, hst]
  · intro tok extUser e htok hcr hst
    simp [Reconcile, createUser, hf, hd, hid, htok, hcr, hst]

/-- World for the C5 witness and the C3 evaluation: fresh record, all
calls succeed, external create returns id "ext-1". -/
def wCreate : World := { wBase with fetchResult := .ok userNew }

/-- Witness for C5 at the concrete successful creation. -/
theorem reconcile_create_branch_witness :
    Reconcile wCreate = ⟨.ok (), [.login, .extCreate specA,
        .statusUpdate ⟨false, [], specA, ⟨"ext-1", "Created"⟩⟩],
      [⟨false, [], specA, ⟨"ext-1", "Created"⟩⟩]⟩ :=
  (reconcile_create_branch wCreate userNew rfl rfl rfl).2.2.1 "tok" extA rfl rfl rfl

/-- C8: every controller helper logs in first (its trace starts with the
login call) and a login failure is returned as the single error with no
downstream external call. -/
theorem helpers_login_first_short_circuit (w : World) (user : User) (id : String)
    (extUser : IdentityUser) :
    ((finalizeUser w user).1.head? = some .login ∧
     (createUser w user).1.head? = some .login ∧
     (getUser w id).1.head? = some .login ∧
     (updateUser w user extUser).1.head? = some .login) ∧
    (∀ e, w.finTokenResult = .error e → finalizeUser w user = ([.login], .error e)) ∧
    (∀ e, w.createTokenResult = .error e → createUser w user = ([.login], .error e)) ∧
    (∀ e, w.getTokenResult = .error e → getUser w id = ([.login], .error e)) ∧
    (∀ e, w.updTokenResult = .error e → updateUser w user extUser = ([.login], .error e)) := by
  refine ⟨⟨?_, ?_, ?_, ?_⟩, ?_, ?_, ?_, ?_⟩
  · rcases h1 : w.finTokenResult with e | t <;> rcases h2 : w.deleteResult with e2 | u2 <;>
      simp [finalizeUser, h1, h2]
  · rcases h1 : w.createTokenResult with e | t <;> rcases h2 : w.createResult with e2 | u2 <;>
      simp [createUser, h1, h2]
  · rcases h1 : w.getTokenResult with e | t <;> rcases h2 : w.getResult with e2 | u2 <;>
      simp [getUser, h1, h2]
  · rcases h1 : w.updTokenResult with e | t <;> rcases h2 : w.updateResult with e2 | u2 <;>
      simp [updateUser, h1, h2]
  · intro e he; simp [finalizeUser, he]
  · intro e he; simp [createUser, he]
  · intro e he; simp [getUser, he]
  · intro e he; simp [updateUser, he]

/-- World for the C8 witness: every login fails with the same error. -/
def wTokErr : World :=
  { wBase with
    finTokenResult := .error (.other "auth")
    createTokenResult := .error (.other "auth")
    getTokenResult := .error (.other "auth")
    updTokenResult := .error (.other "auth") }

/-- Witness for C8 at concrete failing logins: each helper returns just the
login error after a single login attempt. -/
theorem helpers_login_first_short_circuit_witness :
    finalizeUser wTokErr userDel = ([.login], .error (.other "auth")) ∧
    createUser wTokErr userNew = ([.login], .error (.other "auth")) ∧
    getUser wTokErr "ext-1" = ([.login], .error (.other "auth")) ∧
    updateUser wTokErr userLive extA = ([.login], .error (.other "auth")) :=
  ⟨(helpers_login_first_short_circuit wTokErr userDel "ext-1" extA).2.1 _ rfl,
   (helpers_login_first_short_circuit wTokErr userNew "ext-1" extA).2.2.1 _ rfl,
   (helpers_login_first_short_circuit wTokErr userDel "ext-1" extA).2.2.2.1 _ rfl,
   (helpers_login_first_short_circuit wTokErr userLive "ext-1" extA).2.2.2.2 _ rfl⟩

/-- C6: for a record not being deleted with non-empty `Status.ID`, once the
get helper succeeds (and the update helper's login succeeds), `Reconcile`
fetches the external record and issues an external update exactly when one
of the five compared fields differs; the comparison is `driftDetected`,
which equals the five-field disequality and ignores both password fields;
any update issued carries the full desired spec. -/
theorem reconcile_drift_update_iff (w : World) (user : User) (extUser : IdentityUser)
    (tok tok2 : String)
    (hf : w.fetchResult = .ok user)
    (hd : user.deletionRequested = false)
    (hid : user.status.id ≠ "")
    (htok : w.getTokenResult = .ok tok)
    (hget : w.getResult = .ok extUser)
    (htok2 : w.updTokenResult = .ok tok2) :
    Event.extGet user.status.id ∈ (Reconcile w).trace ∧
    ((∃ s, Event.extUpdate extUser.id s ∈ (Reconcile w).trace) ↔
      driftDetected extUser user.spec = true) ∧
    (∀ s, Event.extUpdate extUser.id s ∈ (Reconcile w).trace → s = user.spec) ∧
    (driftDetected extUser user.spec = true ↔
      (extUser.name ≠ user.spec.name ∨ extUser.firstname ≠ user.spec.firstname ∨
       extUser.lastname ≠ user.spec.lastname ∨ extUser.role ≠ user.spec.role ∨
       extUser.age ≠ user.spec.age)) ∧
    (∀ p q, driftDetected { extUser with password := p } { user.spec with password := q } =
      driftDetected extUser user.spec) := by
  refine ⟨?_, ?_, ?_, by simp [driftDetected, or_assoc], by intro p q; simp [driftDetected]⟩ <;>
  · cases hdr : driftDetected extUser user.spec <;>
      cases hupr : w.updateResult <;>
        cases hc : containsString user.finalizers userFinalizer <;>
          cases hobj : w.updateObjResult <;>
            simp [Reconcile, getUser, updateUser, addFinalizer, hf, hd, hid, htok, hget,
              htok2, hdr, hupr, hc, hobj]

/-- External record for the C6 witness: drifted role. -/
def extDrift : IdentityUser := { extA with role := "viewer" }

/-- World for the C6 witness: linked record, external record drifted. -/
def wDrift : World :=
  { wBase with
    fetchResult := .ok userLive
    getResult := .ok extDrift }

/-- Witness for C6 at the concrete drifted record: the external record is
fetched and an update is issued. -/
theorem reconcile_drift_update_iff_witness :
    Event.extGet "ext-1" ∈ (Reconcile wDrift).trace ∧
    (∃ s, Event.extUpdate "ext-1" s ∈ (Reconcile wDrift).trace) :=
  ⟨(reconcile_drift_update_iff wDrift userLive extDrift "tok" "tok"
      rfl rfl (by decide) rfl rfl rfl).1,
   (reconcile_drift_update_iff wDrift userLive extDrift "tok" "tok"
      rfl rfl (by decide) rfl rfl rfl).2.1.mpr (by decide)⟩

/-- C3: evaluation at the failing input. A successful first reconciliation
of a fresh record (no finalizers, empty `Status.ID`) persists a status with
non-empty external id and returns without any finalizer write: the
invocation's only durable write is a record whose external id is "ext-1"
and whose finalizer list lacks the marker, so a durable state with
non-empty external id and no finalizer marker exists. -/
theorem create_persists_externalID_without_finalizer :
    (Reconcile wCreate).result = .ok () ∧
    (Reconcile wCreate).trace = [.login, .extCreate specA,
      .statusUpdate ⟨false, [], specA, ⟨"ext-1", "Created"⟩⟩] ∧
    (Reconcile wCreate).persisted = [⟨false, [], specA, ⟨"ext-1", "Created"⟩⟩] ∧
    (⟨false, [], specA, ⟨"ext-1", "Created"⟩⟩ : User).status.id ≠ "" ∧
    containsString (⟨false, [], specA, ⟨"ext-1", "Created"⟩⟩ : User).finalizers userFinalizer
      = false ∧
    (∀ u, Event.objectUpdate u ∉ (Reconcile wCreate).trace) := by
  have htr : (Reconcile wCreate).trace = [.login, .extCreate specA,
      .statusUpdate ⟨false, [], specA, ⟨"ext-1", "Created"⟩⟩] := by decide
  refine ⟨rfl, htr, by decide, by decide, by decide, ?_⟩
  intro u h
  rw [htr] at h
  simp at h
